import Mathlib

set_option linter.unusedVariables false

/-!
Shallow embedding of `django_select2/forms.py` (the `nsdont/django-select2`
fork), together with the collaborator pieces its methods call: the Django 1.8
`forms.Widget.build_attrs` base method, `django.core.signing.dumps`/`loads`,
the shared cache, and `reverse_lazy`.  Machine-level Python behaviours that
the code exercises (keyword-argument unpacking with non-string keys, tuple
unpacking of strings, positional-argument arity at a call, list `pop`
mutation) are modelled explicitly where they matter.
-/

namespace DjangoSelect2

/-- Python exceptions observable in the embedded code. -/
inductive PyErr where
  | typeError
  | valueError
  | indexError
  | keyError (key : String)
  | notImplementedError (msg : String)
deriving DecidableEq, Repr

/-- The tamper-evident token produced by `django.core.signing.dumps`.
`dumps` deterministically serializes and signs its payload (here always the
CPython `id` of a widget, a natural number); `loads` inverts it on untampered
tokens.  We model the signed string as an opaque token wrapping its payload,
so injectivity of `dumps` and the `loads`-after-`dumps` roundtrip hold by
construction, exactly as they do for the real signer on untampered input. -/
structure Signed where
  payload : Nat
deriving DecidableEq, Repr

/-- `django.core.signing.dumps` (collaborator). -/
def signing_dumps (n : Nat) : Signed := ⟨n⟩

/-- `django.core.signing.loads` on an untampered token (collaborator). -/
def signing_loads (t : Signed) : Nat := t.payload

/-- The lazy URL object returned by `django.core.urlresolvers.reverse_lazy`
(collaborator): it records the view name and resolves it on demand. -/
structure LazyUrl where
  view : String
deriving DecidableEq, Repr

/-- A value stored in an HTML attribute dictionary: the code stores strings,
ints (`data-minimumInputLength`), lists of strings (`data-tokenSeparators`),
signed tokens (`data-field_id`) and lazy URLs (`data-ajax--url`). -/
inductive AttrValue where
  | str (s : String)
  | int (n : Nat)
  | strList (l : List String)
  | signed (t : Signed)
  | url (u : LazyUrl)
deriving DecidableEq, Repr

/-- A Python `dict` with string keys, as an insertion-ordered association
list with unique keys maintained by `dictSet`. -/
abbrev Dict (α : Type) := List (String × α)

/-- `d[k]` lookup returning `None`-style absence: first binding of `k`. -/
def dictGet {α : Type} : Dict α → String → Option α
  | [], _ => none
  | (k1, v) :: rest, k => if k1 = k then some v else dictGet rest k

/-- `d[k] = v`: replace the binding of `k` in place if present, else append. -/
def dictSet {α : Type} : Dict α → String → α → Dict α
  | [], k, v => [(k, v)]
  | (k1, v1) :: rest, k, v =>
      if k1 = k then (k1, v) :: rest else (k1, v1) :: dictSet rest k v

/-- `d.setdefault(k, v)`: leave `d` unchanged when `k` is present, else
append the new binding. -/
def dictSetdefault {α : Type} (d : Dict α) (k : String) (v : α) : Dict α :=
  if (dictGet d k).isSome then d else d ++ [(k, v)]

/-- `d.update(e)`: set every binding of `e` into `d`, in order. -/
def dictUpdate {α : Type} (d e : Dict α) : Dict α :=
  e.foldl (fun acc kv => dictSet acc kv.1 kv.2) d

/-- HTML attribute dictionaries. -/
abbrev Attrs := Dict AttrValue

/-- Django 1.8 `forms.Widget.build_attrs` (external collaborator of the code
under `src/`): `attrs = dict(self.attrs, **kwargs)`, then
`if extra_attrs: attrs.update(extra_attrs)` — where `None` and the empty
dict are both falsy. -/
def Widget_build_attrs (self_attrs : Attrs) (extra_attrs : Option Attrs)
    (kwargs : Attrs) : Attrs :=
  let attrs := dictUpdate self_attrs kwargs
  match extra_attrs with
  | some e => if e.isEmpty then attrs else dictUpdate attrs e
  | none => attrs

/-- `Select2Mixin.build_attrs` (forms.py lines 44-51).  The source calls
`super().build_attrs(extra_attrs=None, **kwargs)`: the literal `None` is
passed, not the `extra_attrs` parameter, so the caller-supplied `extra_attrs`
never reaches the base merge.  Then `data-allowClear` is defaulted from
`self.is_required`, and the marker class is appended to an existing `class`
value (string concatenation: a non-string `class` value would raise
`TypeError`) or inserted. -/
def Select2Mixin.build_attrs (is_required : Bool) (self_attrs : Attrs)
    (extra_attrs : Option Attrs) (kwargs : Attrs) : Except PyErr Attrs :=
  let attrs := Widget_build_attrs self_attrs none kwargs
  let attrs := dictSetdefault attrs "data-allowClear"
    (AttrValue.str (if is_required then "true" else "false"))
  match dictGet attrs "class" with
  | some (AttrValue.str c) =>
      .ok (dictSet attrs "class" (AttrValue.str (c ++ " django-select2")))
  | some _ => .error .typeError
  | none => .ok (dictSet attrs "class" (AttrValue.str "django-select2"))

/-- Digit characters of `n` in base 10, most significant first; the first
argument is fuel (any bound on `n` suffices), so the definition reduces by
structural recursion.  This is the decimal rendering performed by the Python
builtin `str` on a non-negative int. -/
def toDecimalAux : Nat → Nat → List Char
  | 0, _ => []
  | fuel + 1, n =>
      if n = 0 then [] else toDecimalAux fuel (n / 10) ++ [Nat.digitChar (n % 10)]

/-- Python `str(n)` for a non-negative int `n` (used by
`"%s%s" % (prefix_setting, id(self))` in `_get_cache_key`). -/
def pyStr (n : Nat) : String :=
  if n = 0 then "0" else ⟨toDecimalAux n n⟩

/-- The relevant `django_select2.conf.settings` values (configuration
collaborator, read once at startup): the cache key namespace
`SELECT2_CACHE_PREFIX`. -/
structure Settings where
  cachePrefixStr : String
deriving DecidableEq, Repr

/-- The state of a widget built from `HeavySelect2Mixin` (and the underlying
`Select2Mixin` / `forms.Select`): its CPython identity `id(self)` (distinct
for distinct live instances), the framework fields `is_required` and
`attrs`, and the fields set by `HeavySelect2Mixin.__init__` and
`build_attrs`. -/
structure HeavyWidget where
  pyid : Nat
  is_required : Bool
  attrs : Attrs
  data_view : String
  userGetValTextFuncName : String
  widget_id : Option Signed
deriving DecidableEq, Repr

/-- The shared cache backing the registry (`django_select2.cache.cache`,
collaborator): per-key atomic set/get of widget instances. -/
abbrev Cache := Dict HeavyWidget

/-- The keyword arguments accepted by `HeavySelect2Mixin.__init__`: the two
keys it pops, plus the attrs forwarded to the framework constructor. -/
structure HeavyInitKwargs where
  data_view : Option String
  userGetValTextFuncName : Option String
  attrs : Attrs
deriving DecidableEq, Repr

/-- `HeavySelect2Mixin.__init__` (forms.py lines 98-101):
`kwargs.pop('data_view')` raises `KeyError` when the key is absent;
`kwargs.pop('userGetValTextFuncName', 'null')` defaults to `"null"`; the
rest is forwarded to the framework constructor (which sets
`is_required = False` and stores `attrs`).  `pyid` is the identity CPython
assigns the new instance. -/
def HeavySelect2Mixin.init (pyid : Nat) (kwargs : HeavyInitKwargs) :
    Except PyErr HeavyWidget :=
  match kwargs.data_view with
  | none => .error (.keyError "data_view")
  | some dv =>
      .ok { pyid := pyid
            is_required := false
            attrs := kwargs.attrs
            data_view := dv
            userGetValTextFuncName := kwargs.userGetValTextFuncName.getD "null"
            widget_id := none }

/-- `HeavySelect2Mixin.get_url` (forms.py lines 103-104):
`reverse_lazy(self.data_view)`. -/
def get_url (self : HeavyWidget) : LazyUrl := ⟨self.data_view⟩

/-- `HeavySelect2Mixin._get_cache_key` (forms.py lines 118-119):
`"%s%s" % (settings.SELECT2_CACHE_PREFIX, id(self))`. -/
def _get_cache_key (st : Settings) (self : HeavyWidget) : String :=
  st.cachePrefixStr ++ pyStr self.pyid

/-- `HeavySelect2Mixin.build_attrs` (forms.py lines 106-116): the super call
merges attrs (forwarding `extra_attrs`, which `Select2Mixin.build_attrs`
then drops); `kwargs.pop('choices', None)` only mutates the local kwargs
dict and has no observable effect; then the widget signs its identity into
`self.widget_id`, stores itself in the cache under `_get_cache_key()`, and
sets the data attributes. -/
def HeavySelect2Mixin.build_attrs (st : Settings) (cache : Cache)
    (self : HeavyWidget) (extra_attrs : Option Attrs) (kwargs : Attrs) :
    Except PyErr (HeavyWidget × Cache × Attrs) :=
  match Select2Mixin.build_attrs self.is_required self.attrs extra_attrs kwargs with
  | .error e => .error e
  | .ok attrs =>
      let self1 : HeavyWidget := { self with widget_id := some (signing_dumps self.pyid) }
      let cache1 := dictSet cache (_get_cache_key st self1) self1
      let attrs := dictSet attrs "data-field_id" (AttrValue.signed (signing_dumps self.pyid))
      let attrs := dictSetdefault attrs "data-ajax--url" (AttrValue.url (get_url self1))
      let attrs := dictSetdefault attrs "data-ajax--cache" (AttrValue.str "true")
      let attrs := dictSetdefault attrs "data-ajax--type" (AttrValue.str "GET")
      let attrs := dictSetdefault attrs "data-minimumInputLength" (AttrValue.int 2)
      .ok (self1, cache1, attrs)

/-- Modelled from the spec: key resolution by the Central Ajax View
(`views.py` is not under `src/`; only `forms.py` is).  Spec section 2:
"view resolves key, fetches widget from registry"; section 4.1:
`resolve(key) -> widget | miss` for the registry whose entries were written
by the heavy widget render.  The emitted key is the signed identity of the
widget, and the registry entry was stored under
`SELECT2_CACHE_PREFIX ++ str(identity)`, so resolution recovers the identity
from the untampered token and reads that cache slot. -/
def resolve (st : Settings) (cache : Cache) (key : Signed) : Option HeavyWidget :=
  dictGet cache (st.cachePrefixStr ++ pyStr (signing_loads key))

/-- Django 1.8 `forms.Select.render_option` (external collaborator): renders
one `<option>` element, marking it selected when its value is in
`selected_choices` (HTML escaping elided; no settled claim depends on it). -/
def render_option (selected_choices : List String) (option_value option_label : String) :
    String :=
  let sel := if selected_choices.contains option_value then " selected=\"selected\"" else ""
  "<option value=\"" ++ option_value ++ "\"" ++ sel ++ ">" ++ option_label ++ "</option>"

/-- Python tuple unpacking `option_value, option_label = s` where `s` is a
string: iterating a string yields its characters, so the unpack succeeds
exactly when `s` has two characters (yielding two single-character strings)
and raises `ValueError` otherwise. -/
def unpackPair (s : String) : Except PyErr (String × String) :=
  match s.data with
  | [a, b] => .ok (String.singleton a, String.singleton b)
  | _ => .error .valueError

/-- `HeavySelect2Mixin.render_options` (forms.py lines 124-129):
`selected_choices = set(force_text(v) for v in selected_choices)` builds the
set of selected value strings (modelled as first-occurrence deduplication;
CPython set iteration order is unspecified, and no settled claim depends on
the order), and the loop `for option_value, option_label in selected_choices`
iterates that set of strings — not `choices` — unpacking each selected value
string as a (value, label) pair. -/
def HeavySelect2Mixin.render_options (choices : List (String × String))
    (selected_choices : List String) : Except PyErr String :=
  let sel := selected_choices.eraseDups
  match sel.mapM unpackPair with
  | .error e => .error e
  | .ok pairs =>
      .ok (String.intercalate "\n" (pairs.map (fun p => render_option sel p.1 p.2)))

/-- A positional argument at the `HeavySelect2TagWidget.build_attrs` super
call site: the widget itself or an optional attrs dict. -/
inductive PyArg where
  | widget (w : HeavyWidget)
  | attrsOpt (a : Option Attrs)
deriving DecidableEq, Repr

/-- Applying a bound method whose signature is
`build_attrs(self, extra_attrs=None, **kwargs)` to a list of positional
arguments: zero or one positional argument is accepted (`**kwargs` takes
only keywords); more raise `TypeError`, and a positional argument that is
not an attrs dict is passed through as the `extra_attrs` value. -/
def callBuildAttrs1 (f : Option Attrs → Except PyErr (HeavyWidget × Cache × Attrs)) :
    List PyArg → Except PyErr (HeavyWidget × Cache × Attrs)
  | [] => f none
  | [PyArg.attrsOpt a] => f a
  | [PyArg.widget _] => .error .typeError
  | _ => .error .typeError

/-- `HeavySelect2TagWidget.build_attrs` (forms.py lines 141-146): the source
is `attrs = super(HeavySelect2TagWidget, self).build_attrs(self, extra_attrs,
**kwargs)` — it passes `self` as an extra positional argument, so the bound
super method receives two positional arguments where its signature accepts at
most one, and CPython raises `TypeError` at the call; the three tag
attribute assignments below it are unreachable. -/
def HeavySelect2TagWidget.build_attrs (st : Settings) (cache : Cache)
    (self : HeavyWidget) (extra_attrs : Option Attrs) (kwargs : Attrs) :
    Except PyErr (HeavyWidget × Cache × Attrs) :=
  match callBuildAttrs1 (fun ea => HeavySelect2Mixin.build_attrs st cache self ea kwargs)
      [PyArg.widget self, PyArg.attrsOpt extra_attrs] with
  | .error e => .error e
  | .ok (self1, cache1, attrs) =>
      let attrs := dictSet attrs "data-minimumInputLength" (AttrValue.int 1)
      let attrs := dictSet attrs "data-tags" (AttrValue.str "true")
      let attrs := dictSet attrs "data-tokenSeparators" (AttrValue.strList [",", " "])
      .ok (self1, cache1, attrs)

/-- A database record, as its field lookups: a mapping from lookup string
(e.g. `"name"` or `"name__icontains"`, interpretation of the lookup suffix
being the ORM collaborator) to the matched value. -/
abbrev Row := List (String × String)

/-- A Django queryset over rows, in result order. -/
abbrev QuerySet := List Row

/-- A `django.db.models.Q` filter expression (collaborator): a single
keyword condition `Q(**\x7bfield: term\x7d)` or a disjunction built
with `|`. -/
inductive QExpr where
  | cond (field : String) (term : String)
  | disj (a b : QExpr)
deriving DecidableEq, Repr

/-- A Python value flowing through the `reduce` in `filter_queryset`: the
lambda parameters hold either a field-name string (from the iterated list)
or a `Q` object (the accumulator after the first step). -/
inductive QVal where
  | str (s : String)
  | q (e : QExpr)
deriving DecidableEq, Repr

/-- `Q(**\x7bx: term\x7d)`: keyword-argument unpacking requires string keys,
so a `Q`-object key raises `TypeError`. -/
def qKw (x : QVal) (term : String) : Except PyErr QExpr :=
  match x with
  | .str f => .ok (.cond f term)
  | .q _ => .error .typeError

/-- `functools.reduce(lambda x, y: Q(**\x7bx: term\x7d) | Q(**\x7by: term\x7d),
fields, acc)` — the lambda of forms.py line 175, which applies the keyword
construction to the accumulator `x` itself. -/
def reduceQ (term : String) (acc : QExpr) : List String → Except PyErr QExpr
  | [] => .ok acc
  | f :: rest =>
      match qKw (.q acc) term with
      | .error e => .error e
      | .ok left =>
          match qKw (.str f) term with
          | .error e => .error e
          | .ok right => reduceQ term (.disj left right) rest

/-- Whether a row satisfies a `Q` expression (ORM collaborator): a keyword
condition matches when the row has that lookup with that term, and `|` is
disjunction. -/
def qmatch (r : Row) : QExpr → Bool
  | .cond f t => dictGet r f == some t
  | .disj a b => qmatch r a || qmatch r b

/-- `qs.filter(select)` (ORM collaborator). -/
def qs_filter (qs : QuerySet) (select : QExpr) : QuerySet :=
  qs.filter (fun r => qmatch r select)

/-- `qs.distinct()` (ORM collaborator): duplicate elimination keeping first
occurrences. -/
def qs_distinct (qs : QuerySet) : QuerySet := qs.eraseDups

/-- A Django model class reference, as the queryset its default manager
returns: `model._default_manager.all()`. -/
structure ModelRef where
  all_rows : QuerySet
deriving DecidableEq, Repr

/-- The state of a widget built from `AutoHeavySelect2Mixin` (forms.py lines
152-162): the four configuration attributes, plus `self.__class__.__name__`
used in its error messages.  (`__init__` pops each of the four from kwargs
with the class attribute as default and defaults `data_view` to
`django_select2_central_json`; the claims concern the resulting instance
state, carried here.) -/
structure AutoHeavyWidget where
  model : Option ModelRef
  queryset : Option QuerySet
  search_fields : List String
  max_results : Nat
  cls : String
deriving DecidableEq, Repr

/-- The message of the `NotImplementedError` raised by `get_queryset`
(forms.py lines 185-191), with `%(cls)s` substituted by
`self.__class__.__name__`. -/
def queryset_error_msg (cls : String) : String :=
  cls ++ " is missing a QuerySet. Define " ++ cls ++ ".model, " ++ cls ++
    ".queryset, or override " ++ cls ++ ".get_queryset()."

/-- The message of the `NotImplementedError` raised by `get_search_fields`
(forms.py line 197). -/
def search_fields_error_msg (cls : String) : String :=
  cls ++ ", must implement \"search_fields\"."

/-- `AutoHeavySelect2Mixin.get_queryset` (forms.py lines 179-192). -/
def get_queryset (self : AutoHeavyWidget) : Except PyErr QuerySet :=
  match self.queryset with
  | some qs => .ok qs
  | none =>
      match self.model with
      | some m => .ok m.all_rows
      | none => .error (.notImplementedError (queryset_error_msg self.cls))

/-- `AutoHeavySelect2Mixin.get_search_fields` (forms.py lines 194-197):
returns `self.search_fields` itself when truthy (non-empty), else raises. -/
def get_search_fields (self : AutoHeavyWidget) : Except PyErr (List String) :=
  if self.search_fields.isEmpty then
    .error (.notImplementedError (search_fields_error_msg self.cls))
  else .ok self.search_fields

/-- `AutoHeavySelect2Mixin.filter_queryset` (forms.py lines 167-177).  The
arguments of the `reduce` call are evaluated first, so
`search_fields.pop()` removes and returns the LAST element of the list —
and that list is `self.search_fields` itself, returned by
`get_search_fields`, so the pop mutates the widget configuration; the
mutation persists even when the subsequent `reduce` raises.  `reduce` then
folds the buggy lambda over the remaining (popped) list starting from
`Q(**\x7blast: term\x7d)`.  The widget state is returned alongside the
result because exceptions do not roll mutations back. -/
def filter_queryset (self : AutoHeavyWidget) (term : String) :
    AutoHeavyWidget × Except PyErr QuerySet :=
  match get_queryset self with
  | .error e => (self, .error e)
  | .ok qs =>
      match get_search_fields self with
      | .error e => (self, .error e)
      | .ok fields =>
          match fields.getLast? with
          | none => (self, .error .indexError)
          | some last =>
              match reduceQ term (.cond last term) fields.dropLast with
              | .error e =>
                  ({ self with search_fields := fields.dropLast }, .error e)
              | .ok select =>
                  ({ self with search_fields := fields.dropLast },
                   .ok (qs_distinct (qs_filter qs select)))

/-- `n` successive calls of `filter_queryset(term)` on a widget, tracking
only the widget state. -/
def iterFilter (term : String) : Nat → AutoHeavyWidget → AutoHeavyWidget
  | 0, w => w
  | n + 1, w => iterFilter term n (filter_queryset w term).1

/-! ## Concrete data used by the evaluation theorems and the witnesses -/

def exampleRows : QuerySet := [[("name", "x")], [("email", "x")], [("name", "y")]]

def exampleTwoFieldWidget : AutoHeavyWidget :=
  { model := none, queryset := some exampleRows,
    search_fields := ["name", "email"], max_results := 25,
    cls := "AutoHeavySelect2Widget" }

def unconfiguredWidget : AutoHeavyWidget :=
  { model := none, queryset := none, search_fields := ["name"],
    max_results := 25, cls := "MyWidget" }

def emptyFieldsWidget : AutoHeavyWidget :=
  { model := none, queryset := some exampleRows, search_fields := [],
    max_results := 25, cls := "MyWidget" }

def exampleSettings : Settings := ⟨"select2_"⟩

def exampleHeavy : HeavyWidget :=
  { pyid := 7, is_required := true, attrs := [], data_view := "dv",
    userGetValTextFuncName := "null", widget_id := none }

def exampleHeavyB : HeavyWidget := { exampleHeavy with pyid := 8 }

def exampleHeavyRegistered : HeavyWidget :=
  { exampleHeavy with widget_id := some (signing_dumps 7) }

def exampleCacheAfter : Cache := [("select2_7", exampleHeavyRegistered)]

def exampleAttrsAfter : Attrs :=
  [("data-allowClear", AttrValue.str "true"),
   ("class", AttrValue.str "django-select2"),
   ("data-field_id", AttrValue.signed (signing_dumps 7)),
   ("data-ajax--url", AttrValue.url ⟨"dv"⟩),
   ("data-ajax--cache", AttrValue.str "true"),
   ("data-ajax--type", AttrValue.str "GET"),
   ("data-minimumInputLength", AttrValue.int 2)]

def exampleInitKwargsNoView : HeavyInitKwargs :=
  { data_view := none, userGetValTextFuncName := none, attrs := [] }

/-! ## Basic lemmas about the dictionary, string and decimal models -/

theorem dictGet_dictSet_self {α : Type} (d : Dict α) (k : String) (v : α) :
    dictGet (dictSet d k v) k = some v := by
  induction d with
  | nil => simp [dictSet, dictGet]
  | cons hd tl ih =>
      obtain ⟨k1, v1⟩ := hd
      by_cases hk : k1 = k <;> simp [dictSet, dictGet, hk, ih]

theorem dictGet_dictSet_ne {α : Type} (d : Dict α) (k1 k : String) (v : α)
    (h : k1 ≠ k) : dictGet (dictSet d k1 v) k = dictGet d k := by
  induction d with
  | nil => simp [dictSet, dictGet, h]
  | cons hd tl ih =>
      obtain ⟨k2, v2⟩ := hd
      by_cases hk : k2 = k1
      · subst hk; simp [dictSet, dictGet, h]
      · by_cases hk2 : k2 = k <;> simp [dictSet, dictGet, hk, hk2, Ne.symm h, ih]

theorem dictGet_append_some {α : Type} (d e : Dict α) (k : String) (v : α)
    (h : dictGet d k = some v) : dictGet (d ++ e) k = some v := by
  induction d with
  | nil => simp [dictGet] at h
  | cons hd tl ih =>
      obtain ⟨k1, v1⟩ := hd
      by_cases hk : k1 = k
      · simpa [dictGet, hk] using h
      · rw [dictGet, if_neg hk] at h
        simpa [dictGet, hk] using ih h

theorem dictGet_append_none {α : Type} (d e : Dict α) (k : String)
    (h : dictGet d k = none) : dictGet (d ++ e) k = dictGet e k := by
  induction d with
  | nil => simp [dictGet]
  | cons hd tl ih =>
      obtain ⟨k1, v1⟩ := hd
      by_cases hk : k1 = k
      · simp [dictGet, hk] at h
      · rw [dictGet, if_neg hk] at h
        simpa [dictGet, hk] using ih h

theorem dictGet_dictSetdefault_ne {α : Type} (d : Dict α) (k1 k : String) (v : α)
    (h : k1 ≠ k) : dictGet (dictSetdefault d k1 v) k = dictGet d k := by
  unfold dictSetdefault
  split
  · rfl
  · cases hd : dictGet d k with
    | some w => exact dictGet_append_some d [(k1, v)] k w hd
    | none => rw [dictGet_append_none d [(k1, v)] k hd]; simp [dictGet, h]

theorem stringAppend_left_cancel (s t u : String) (h : s ++ t = s ++ u) : t = u := by
  have hd := congrArg String.data h
  rw [String.data_append, String.data_append] at hd
  exact String.ext (List.append_cancel_left hd)

/-- Decoding a list of decimal digit characters, most significant first. -/
def decodeDecimal (l : List Char) : Nat :=
  l.foldl (fun acc c => acc * 10 + (c.toNat - 48)) 0

theorem charToNat_digitChar : ∀ d < 10, (Nat.digitChar d).toNat - 48 = d := by decide

theorem toDecimalAux_zero (fuel : Nat) : toDecimalAux fuel 0 = [] := by
  cases fuel <;> simp [toDecimalAux]

theorem decodeDecimal_toDecimalAux :
    ∀ fuel n, n ≤ fuel → n ≠ 0 → decodeDecimal (toDecimalAux fuel n) = n := by
  intro fuel
  induction fuel with
  | zero => intro n hle hn; omega
  | succ fuel ih =>
      intro n hle hn
      rw [toDecimalAux, if_neg hn]
      unfold decodeDecimal
      rw [List.foldl_append]
      simp only [List.foldl_cons, List.foldl_nil]
      have hmod : (Nat.digitChar (n % 10)).toNat - 48 = n % 10 :=
        charToNat_digitChar (n % 10) (Nat.mod_lt n (by norm_num))
      by_cases h10 : n / 10 = 0
      · rw [h10, toDecimalAux_zero]
        simp only [List.foldl_nil]
        rw [hmod]
        omega
      · have hlt : n / 10 < n := Nat.div_lt_self (Nat.pos_of_ne_zero hn) (by norm_num)
        have := ih (n / 10) (by omega) h10
        unfold decodeDecimal at this
        rw [this, hmod]
        omega

theorem decodeDecimal_pyStr (k : Nat) : decodeDecimal (pyStr k).data = k := by
  by_cases hk : k = 0
  · subst hk; rfl
  · have hs : pyStr k = ⟨toDecimalAux k k⟩ := by rw [pyStr, if_neg hk]
    rw [hs]
    exact decodeDecimal_toDecimalAux k k le_rfl hk

theorem pyStr_injective (m n : Nat) (h : pyStr m = pyStr n) : m = n := by
  have hd := congrArg String.data h
  have hm := decodeDecimal_pyStr m
  rw [hd, decodeDecimal_pyStr n] at hm
  exact hm.symm

/-! ## Helper lemmas about `filter_queryset` -/

theorem filter_queryset_fst_frame (w : AutoHeavyWidget) (term : String) :
    (filter_queryset w term).1.model = w.model ∧
    (filter_queryset w term).1.queryset = w.queryset ∧
    (filter_queryset w term).1.max_results = w.max_results ∧
    (filter_queryset w term).1.cls = w.cls := by
  unfold filter_queryset
  split
  · exact ⟨rfl, rfl, rfl, rfl⟩
  · split
    · exact ⟨rfl, rfl, rfl, rfl⟩
    · split
      · exact ⟨rfl, rfl, rfl, rfl⟩
      · split <;> exact ⟨rfl, rfl, rfl, rfl⟩

theorem filter_queryset_fst_search_fields (w : AutoHeavyWidget) (term : String)
    (qs : QuerySet) (hq : get_queryset w = .ok qs) :
    (filter_queryset w term).1.search_fields = w.search_fields.dropLast := by
  by_cases hne : w.search_fields = []
  · simp [filter_queryset, hq, get_search_fields, hne]
  · have hie : w.search_fields.isEmpty = false := by simpa using hne
    cases hgl : w.search_fields.getLast? with
    | none => exact absurd (List.getLast?_eq_none_iff.mp hgl) hne
    | some last =>
        cases hr : reduceQ term (.cond last term) w.search_fields.dropLast with
        | error e => simp [filter_queryset, hq, get_search_fields, hie, hgl, hr]
        | ok sel => simp [filter_queryset, hq, get_search_fields, hie, hgl, hr]

theorem filter_queryset_empty_aux (w : AutoHeavyWidget) (term : String)
    (qs : QuerySet) (hq : get_queryset w = .ok qs) (hs : w.search_fields = []) :
    filter_queryset w term =
      (w, .error (.notImplementedError (search_fields_error_msg w.cls))) := by
  simp [filter_queryset, hq, get_search_fields, hs]

theorem iterFilter_empties (term : String) :
    ∀ n (w : AutoHeavyWidget) (qs : QuerySet), w.queryset = some qs →
      w.search_fields.length = n → (iterFilter term n w).search_fields = [] := by
  intro n
  induction n with
  | zero => intro w qs hq hl; exact List.eq_nil_of_length_eq_zero hl
  | succ n ih =>
      intro w qs hq hl
      rw [iterFilter]
      have hq1 : (filter_queryset w term).1.queryset = w.queryset :=
        (filter_queryset_fst_frame w term).2.1
      have hgq : get_queryset w = .ok qs := by simp [get_queryset, hq]
      have hsf := filter_queryset_fst_search_fields w term qs hgq
      refine ih (filter_queryset w term).1 qs (by rw [hq1, hq]) ?_
      rw [hsf, List.length_dropLast, hl]
      omega

/-! ## Claim theorems -/

/-- Claim C1 (code_bug evaluation): with the configured data source and
`search_fields = ["name", "email"]`, `filter_queryset("x")` does not return
the deduplicated OR-filtered queryset the claim describes: the `reduce`
lambda of forms.py line 175 applies `Q(**\x7bx: term\x7d)` to the
accumulator `x`, which after the initial element is a `Q` object, so keyword
unpacking raises `TypeError` for every `search_fields` of length at least
two (the popped widget state is also visible in the result). -/
theorem filter_queryset_two_search_fields_type_error :
    filter_queryset exampleTwoFieldWidget "x" =
      ({ exampleTwoFieldWidget with search_fields := ["name"] },
       .error .typeError) := rfl

/-- Claim C2 (code_bug evaluation): `Select2Mixin.build_attrs` passes the
literal `extra_attrs=None` to the base `build_attrs` (forms.py line 45), so
a caller-supplied attribute dictionary is dropped: with
`extra_attrs = \x7b"placeholder": "custom"\x7d` the output has no
`placeholder` key at all, even though it does carry the marker class and the
required-derived `data-allowClear` flag. -/
theorem select2_build_attrs_drops_extra_attrs :
    Select2Mixin.build_attrs false [] (some [("placeholder", AttrValue.str "custom")]) [] =
      .ok [("data-allowClear", AttrValue.str "false"),
           ("class", AttrValue.str "django-select2")] ∧
    dictGet [("data-allowClear", AttrValue.str "false"),
             ("class", AttrValue.str "django-select2")] "placeholder" = none :=
  ⟨rfl, rfl⟩

/-- Claim C3: every successful `HeavySelect2Mixin.build_attrs` call emits the
signed identity of the widget as `data-field_id`, registers the widget in the
cache under its identity-derived key, and resolving the emitted key against
the registry immediately afterwards returns that same widget instance. -/
theorem heavy_build_attrs_registers_and_resolves
    (st : Settings) (cache : Cache) (w w1 : HeavyWidget)
    (extra_attrs : Option Attrs) (kwargs : Attrs) (cache1 : Cache) (attrs : Attrs)
    (h : HeavySelect2Mixin.build_attrs st cache w extra_attrs kwargs =
      .ok (w1, cache1, attrs)) :
    dictGet attrs "data-field_id" = some (AttrValue.signed (signing_dumps w.pyid)) ∧
    w1 = { w with widget_id := some (signing_dumps w.pyid) } ∧
    dictGet cache1 (_get_cache_key st w1) = some w1 ∧
    resolve st cache1 (signing_dumps w.pyid) = some w1 := by
  unfold HeavySelect2Mixin.build_attrs at h
  cases hs : Select2Mixin.build_attrs w.is_required w.attrs extra_attrs kwargs with
  | error e => rw [hs] at h; cases h
  | ok a0 =>
      rw [hs] at h
      simp only [Except.ok.injEq, Prod.mk.injEq] at h
      obtain ⟨hw1, hcache1, hattrs⟩ := h
      subst hw1; subst hcache1; subst hattrs
      refine ⟨?_, rfl, ?_, ?_⟩
      · rw [dictGet_dictSetdefault_ne _ "data-minimumInputLength" "data-field_id" _ (by decide),
            dictGet_dictSetdefault_ne _ "data-ajax--type" "data-field_id" _ (by decide),
            dictGet_dictSetdefault_ne _ "data-ajax--cache" "data-field_id" _ (by decide),
            dictGet_dictSetdefault_ne _ "data-ajax--url" "data-field_id" _ (by decide)]
        exact dictGet_dictSet_self ..
      · exact dictGet_dictSet_self ..
      · exact dictGet_dictSet_self ..

/-- Witness for C3 at a concrete widget, cache and call. -/
theorem heavy_build_attrs_registers_witness :
    dictGet exampleAttrsAfter "data-field_id" =
      some (AttrValue.signed (signing_dumps exampleHeavy.pyid)) ∧
    exampleHeavyRegistered =
      { exampleHeavy with widget_id := some (signing_dumps exampleHeavy.pyid) } ∧
    dictGet exampleCacheAfter (_get_cache_key exampleSettings exampleHeavyRegistered) =
      some exampleHeavyRegistered ∧
    resolve exampleSettings exampleCacheAfter (signing_dumps exampleHeavy.pyid) =
      some exampleHeavyRegistered :=
  heavy_build_attrs_registers_and_resolves exampleSettings [] exampleHeavy
    exampleHeavyRegistered none [] exampleCacheAfter exampleAttrsAfter rfl

/-- Claim C4 (code_bug evaluation): every `HeavySelect2TagWidget.build_attrs`
call raises `TypeError` — the super call of forms.py line 142 passes `self`
as an extra positional argument — so no attribute set with
`data-minimumInputLength = 1`, `data-tags` and `data-tokenSeparators` is
ever returned. -/
theorem tag_build_attrs_always_raises_type_error (st : Settings) (cache : Cache)
    (w : HeavyWidget) (extra_attrs : Option Attrs) (kwargs : Attrs) :
    HeavySelect2TagWidget.build_attrs st cache w extra_attrs kwargs =
      .error .typeError := rfl

/-- Claim C5 (code_bug evaluation): `render_options` does not render an
option per selected choice from the choice list — it iterates over the set
of selected value strings itself (forms.py line 127) and unpacks each string
as a (value, label) pair: a selected value of length other than two raises
`ValueError`, and a two-character selected value such as `"jo"` yields the
nonsensical markup with value `"j"` and label `"o"` instead of an option for
the selected choice `("jo", "Joe")`. -/
theorem render_options_unpacks_selected_values :
    HeavySelect2Mixin.render_options [("123", "Alice")] ["123"] = .error .valueError ∧
    HeavySelect2Mixin.render_options [("jo", "Joe")] ["jo"] =
      .ok "<option value=\"j\">o</option>" :=
  ⟨rfl, rfl⟩

/-- Claim C6: `get_queryset` returns the explicit queryset when set,
otherwise the full default-manager queryset of the model when set, and
otherwise raises the configuration error whose message names the widget
class and the missing attributes (`queryset_error_msg`). -/
theorem get_queryset_configuration_cases (w : AutoHeavyWidget) :
    (∀ qs, w.queryset = some qs → get_queryset w = .ok qs) ∧
    (w.queryset = none → ∀ m, w.model = some m → get_queryset w = .ok m.all_rows) ∧
    (w.queryset = none → w.model = none →
      get_queryset w = .error (.notImplementedError (queryset_error_msg w.cls))) := by
  refine ⟨?_, ?_, ?_⟩
  · intro qs h; simp [get_queryset, h]
  · intro h m hm; simp [get_queryset, h, hm]
  · intro h hm; simp [get_queryset, h, hm]

/-- Witness for C6 at a concrete widget with neither `model` nor
`queryset`. -/
theorem get_queryset_configuration_witness :
    get_queryset unconfiguredWidget =
      .error (.notImplementedError (queryset_error_msg "MyWidget")) :=
  (get_queryset_configuration_cases unconfiguredWidget).2.2 rfl rfl

/-- Claim C7: with a configured data source and empty `search_fields`,
`filter_queryset` raises the configuration error naming the widget class,
for every term. -/
theorem filter_queryset_empty_search_fields_raises (w : AutoHeavyWidget)
    (term : String) (qs : QuerySet) (hconf : get_queryset w = .ok qs)
    (hs : w.search_fields = []) :
    filter_queryset w term =
      (w, .error (.notImplementedError (search_fields_error_msg w.cls))) :=
  filter_queryset_empty_aux w term qs hconf hs

/-- Witness for C7 at a concrete widget with a queryset and no search
fields. -/
theorem filter_queryset_empty_search_fields_raises_witness :
    filter_queryset emptyFieldsWidget "x" =
      (emptyFieldsWidget,
       .error (.notImplementedError (search_fields_error_msg "MyWidget"))) :=
  filter_queryset_empty_search_fields_raises emptyFieldsWidget "x" exampleRows rfl rfl

/-- Claim C8: constructing a Heavy widget without a `data_view` keyword
raises `KeyError` at construction time; with a `data_view` keyword the
construction succeeds and stores the identifier, which `get_url` resolves
lazily. -/
theorem heavy_init_requires_data_view (pyid : Nat) (kwargs : HeavyInitKwargs) :
    (kwargs.data_view = none →
      HeavySelect2Mixin.init pyid kwargs = .error (.keyError "data_view")) ∧
    (∀ dv, kwargs.data_view = some dv →
      HeavySelect2Mixin.init pyid kwargs =
        .ok { pyid := pyid, is_required := false, attrs := kwargs.attrs,
              data_view := dv,
              userGetValTextFuncName := kwargs.userGetValTextFuncName.getD "null",
              widget_id := none } ∧
      ∀ w, HeavySelect2Mixin.init pyid kwargs = .ok w →
        w.data_view = dv ∧ get_url w = ⟨dv⟩) := by
  constructor
  · intro h; simp [HeavySelect2Mixin.init, h]
  · intro dv h
    constructor
    · simp [HeavySelect2Mixin.init, h]
    · intro w hw
      rw [HeavySelect2Mixin.init, h] at hw
      simp only [Except.ok.injEq] at hw
      subst hw
      exact ⟨rfl, rfl⟩

/-- Witness for C8 at concrete constructions without and with
`data_view`. -/
theorem heavy_init_requires_data_view_witness :
    HeavySelect2Mixin.init 3 exampleInitKwargsNoView = .error (.keyError "data_view") :=
  (heavy_init_requires_data_view 3 exampleInitKwargsNoView).1 rfl

/-- Claim C9: two live Heavy widget instances with distinct identities get
distinct registry cache keys and distinct signed field ids, so registering
one never overwrites the entry of the other. -/
theorem distinct_widgets_distinct_registry_keys (st : Settings)
    (w1 w2 : HeavyWidget) (cache : Cache) (h : w1.pyid ≠ w2.pyid) :
    _get_cache_key st w1 ≠ _get_cache_key st w2 ∧
    signing_dumps w1.pyid ≠ signing_dumps w2.pyid ∧
    dictGet (dictSet cache (_get_cache_key st w1) w1) (_get_cache_key st w2) =
      dictGet cache (_get_cache_key st w2) := by
  have hkey : _get_cache_key st w1 ≠ _get_cache_key st w2 := by
    intro he
    exact h (pyStr_injective w1.pyid w2.pyid (stringAppend_left_cancel _ _ _ he))
  refine ⟨hkey, ?_, dictGet_dictSet_ne cache _ _ w1 hkey⟩
  intro he
  exact h (congrArg Signed.payload he)

/-- Witness for C9 at two concrete widgets with identities 7 and 8. -/
theorem distinct_widgets_distinct_registry_keys_witness :
    _get_cache_key exampleSettings exampleHeavy ≠
      _get_cache_key exampleSettings exampleHeavyB ∧
    signing_dumps exampleHeavy.pyid ≠ signing_dumps exampleHeavyB.pyid ∧
    dictGet (dictSet [] (_get_cache_key exampleSettings exampleHeavy) exampleHeavy)
        (_get_cache_key exampleSettings exampleHeavyB) =
      dictGet [] (_get_cache_key exampleSettings exampleHeavyB) :=
  distinct_widgets_distinct_registry_keys exampleSettings exampleHeavy exampleHeavyB []
    (by decide)

/-- Claim C10: `filter_queryset` mutates the widget configuration — each
call with a configured queryset pops the last element of
`self.search_fields` (also when the call then raises), so after as many
calls as there were fields the list is empty and a further call raises the
empty-`search_fields` configuration error — while `model`, `queryset` and
`max_results` are unchanged. -/
theorem filter_queryset_pops_search_fields (w : AutoHeavyWidget) (term : String)
    (qs : QuerySet) (hq : w.queryset = some qs) :
    (filter_queryset w term).1.search_fields = w.search_fields.dropLast ∧
    (filter_queryset w term).1.model = w.model ∧
    (filter_queryset w term).1.queryset = w.queryset ∧
    (filter_queryset w term).1.max_results = w.max_results ∧
    (iterFilter term w.search_fields.length w).search_fields = [] ∧
    (w.search_fields = [] →
      (filter_queryset w term).2 =
        .error (.notImplementedError (search_fields_error_msg w.cls))) := by
  have hgq : get_queryset w = .ok qs := by simp [get_queryset, hq]
  refine ⟨filter_queryset_fst_search_fields w term qs hgq,
          (filter_queryset_fst_frame w term).1,
          (filter_queryset_fst_frame w term).2.1,
          (filter_queryset_fst_frame w term).2.2.1,
          iterFilter_empties term w.search_fields.length w qs hq rfl, ?_⟩
  intro h0
  rw [filter_queryset_empty_aux w term qs hgq h0]

/-- Witness for C10 at a concrete two-field widget. -/
theorem filter_queryset_pops_search_fields_witness :
    (filter_queryset exampleTwoFieldWidget "x").1.search_fields =
      exampleTwoFieldWidget.search_fields.dropLast ∧
    (filter_queryset exampleTwoFieldWidget "x").1.model = exampleTwoFieldWidget.model ∧
    (filter_queryset exampleTwoFieldWidget "x").1.queryset =
      exampleTwoFieldWidget.queryset ∧
    (filter_queryset exampleTwoFieldWidget "x").1.max_results =
      exampleTwoFieldWidget.max_results ∧
    (iterFilter "x" exampleTwoFieldWidget.search_fields.length
      exampleTwoFieldWidget).search_fields = [] ∧
    (exampleTwoFieldWidget.search_fields = [] →
      (filter_queryset exampleTwoFieldWidget "x").2 =
        .error (.notImplementedError
          (search_fields_error_msg exampleTwoFieldWidget.cls))) :=
  filter_queryset_pops_search_fields exampleTwoFieldWidget "x" exampleRows rfl

end DjangoSelect2
